import Mathlib

/-!
Verification of the tree-growth simulation (src/TreeSimulation.py).

Python floats are modelled as exact rationals.  The transcendental helpers
`math.pi`, `math.cos`, `math.sin` return floats (hence rationals), so they are
abstracted into a record `PyMath` of rational-valued functions over which every
statement is universally quantified.  Python float floor division `a // b` is
`floor (a / b)` and `int()` truncates toward zero; both are modelled exactly.
Dictionary entries that may be absent (the per-aspect output dictionaries read
by `get_data`) are modelled with `Option`; a `KeyError` is `none`.
-/

namespace TreeSim

/-- Abstraction of the float-valued `math` functions used by the source. -/
structure PyMath where
  pi : ℚ
  cos : ℚ → ℚ
  sin : ℚ → ℚ

/-- `math.radians`. -/
def PyMath.radians (M : PyMath) (x : ℚ) : ℚ := x * M.pi / 180

/-- Python float floor division `a // b`. -/
def pyFloorDiv (a b : ℚ) : ℚ := ((⌊a / b⌋ : ℤ) : ℚ)

/-- Python `int()` applied to a float: truncation toward zero. -/
def pyInt (q : ℚ) : ℤ := if 0 ≤ q then ⌊q⌋ else -⌊-q⌋

/-- The mutable fields of `EnergyAspect`: `self.latitude`, `self.has_leaves`
and the shared state dictionary entries written by `__init__`. -/
structure EnergyState where
  latitude : ℚ
  has_leaves : Bool
  stored_nutrients : ℚ
  tree_size : ℚ

/-- `EnergyAspect.photosynthesis` (lines 24-52 of the source). -/
def EnergyAspect.photosynthesis (M : PyMath) (es : EnergyState)
    (day_of_year temperature humidity CO2_concentration a : ℚ) : ℚ :=
  if !es.has_leaves then 0 else
    let temperature_factor := max 0 (1 - |25 - temperature| * (5/100))
    let humidity_factor := max 0 (1 - |50 - humidity| * (1/100))
    let CO2_factor := CO2_concentration / 400
    let latitude_rad := M.radians es.latitude
    let seasonal_factor := M.cos (2 * M.pi * day_of_year / (36525/100))
    let D := 12 * (1 + M.cos (latitude_rad * seasonal_factor))
    let declination := (2344/100) * M.sin (2 * M.pi * (day_of_year + 10) / (36525/100))
    let declination_rad := M.radians declination
    let I := M.cos (latitude_rad - declination_rad)
    let leaf_area_multiplier := 1 + (1/10) * es.tree_size
    a * D * I * temperature_factor * humidity_factor * CO2_factor * leaf_area_multiplier

/-- `EnergyAspect.water_requirement` (lines 55-61). -/
def EnergyAspect.water_requirement (temperature : ℚ) : ℚ :=
  let base_requirement : ℚ := 40 / 7
  if temperature > 30 then base_requirement * (3/2)
  else if temperature < 15 then base_requirement * (3/4)
  else base_requirement

/-- `EnergyAspect.respiration_and_growth` (lines 64-79): returns the updated
energy state together with the total consumption. -/
def EnergyAspect.respiration_and_growth (es : EnergyState) : EnergyState × ℚ :=
  let respiration_rate := (5/100) * es.tree_size
  let bud_root_growth_rate :=
    if es.stored_nutrients > 20 then (2/100) * es.stored_nutrients else 0
  let total_consumption := respiration_rate + bud_root_growth_rate
  let nutrients1 := es.stored_nutrients - total_consumption
  let size1 := if nutrients1 > 20 then es.tree_size + (1/100) else es.tree_size
  ({ es with stored_nutrients := nutrients1, tree_size := size1 }, total_consumption)

/-- `EnergyAspect.generate_energy` (lines 82-93): returns the updated energy
state together with the net energy. -/
def EnergyAspect.generate_energy (M : PyMath) (es : EnergyState)
    (sunlight water day_of_year temperature humidity CO2_concentration : ℚ) :
    EnergyState × ℚ :=
  if es.has_leaves then
    let photosynthesis_efficiency :=
      EnergyAspect.photosynthesis M es day_of_year temperature humidity
        CO2_concentration 1
    let energy_generated := sunlight * water * (1/10) * photosynthesis_efficiency
    let es1 := { es with stored_nutrients := es.stored_nutrients + energy_generated }
    let r := EnergyAspect.respiration_and_growth es1
    (r.1, energy_generated - r.2)
  else
    let r := EnergyAspect.respiration_and_growth es
    (r.1, 0)

/-- `LogicAspect.seasonal_multiplier` (lines 103-104). -/
def LogicAspect.seasonal_multiplier (M : PyMath) (day_of_year : ℚ) : ℚ :=
  1 - (8/10) * M.cos (M.pi * day_of_year / (1825/10))

/-- `LogicAspect.decide_growth_and_fruit_production` (lines 108-125): returns
`(growth_rate, updated stored_nutrients, fruit_count)`. -/
def LogicAspect.decide_growth_and_fruit_production (M : PyMath)
    (stored_nutrients day_of_year tree_age tree_size health : ℚ) : ℚ × ℚ × ℤ :=
  let growth_multiplier := (1 + (5/100) * tree_size) * health
  let growth_rate :=
    stored_nutrients * (1/10) * LogicAspect.seasonal_multiplier M day_of_year *
      growth_multiplier
  if 150 ≤ day_of_year ∧ day_of_year ≤ 250 ∧ stored_nutrients > 10 ∧
      3 ≤ tree_age ∧ tree_age ≤ 5 then
    let fruit_production_multiplier := max (1/2) health
    let fruit_count :=
      pyInt (pyFloorDiv stored_nutrients 10 * fruit_production_multiplier)
    (growth_rate, stored_nutrients - (fruit_count : ℚ) * (1/2), fruit_count)
  else
    (growth_rate, stored_nutrients, 0)

/-- `ControlAspect.assess_health` (lines 135-140). -/
def ControlAspect.assess_health (stored_nutrients disease_factor : ℚ) : ℚ :=
  let health : ℚ := 1
  let health := health - disease_factor
  if stored_nutrients < 10 then health - (1/10) else health

/-- The leaf rule of `Tree.daily_update` line 154:
`not (330 <= day <= 365 or 1 <= day <= 60)`. -/
def leavesForDay (day_of_year : ℚ) : Bool :=
  if (330 ≤ day_of_year ∧ day_of_year ≤ 365) ∨
      (1 ≤ day_of_year ∧ day_of_year ≤ 60) then false else true

/-- The `Tree` object (lines 143-150): its age, the energy aspect state, the
output dictionary entries written by `daily_update` (absent until the first
call, hence `Option`), and the control aspect state. -/
structure Tree where
  age : ℚ
  energy : EnergyState
  growth_rate : Option ℚ
  fruit_count : Option ℤ
  health : ℚ
  health_status : Option String

/-- `Tree.__init__` (lines 144-150). -/
def Tree.init (latitude initial_nutrients : ℚ) : Tree :=
  { age := 0
    energy :=
      { latitude := latitude, has_leaves := true,
        stored_nutrients := initial_nutrients, tree_size := 1 }
    growth_rate := none
    fruit_count := none
    health := 1
    health_status := none }

/-- `Tree.daily_update` (lines 152-166). -/
def Tree.daily_update (M : PyMath) (t : Tree)
    (sunlight water day_of_year temperature humidity CO2_concentration
      disease_factor : ℚ) : Tree :=
  let age1 := t.age + 1/365
  let es0 := { t.energy with has_leaves := leavesForDay day_of_year }
  let r := EnergyAspect.generate_energy M es0 sunlight water day_of_year
    temperature humidity CO2_concentration
  let stored_nutrients := r.1.stored_nutrients
  let health := ControlAspect.assess_health stored_nutrients disease_factor
  let tree_size := r.1.tree_size
  let dres := LogicAspect.decide_growth_and_fruit_production M stored_nutrients
    day_of_year age1 tree_size health
  { age := age1
    energy := { r.1 with stored_nutrients := dres.2.1 }
    growth_rate := some dres.1
    fruit_count := some dres.2.2
    health := health
    health_status :=
      some (if health ≥ 9/10 then "Healthy"
            else if health ≤ 6/10 then "Unhealthy" else "Average") }

/-- The record assembled by `Tree.get_data` (lines 168-189). -/
structure Snapshot where
  age : ℚ
  stored_nutrients : ℚ
  growth_rate : ℚ
  tree_size : ℚ
  fruit_count : ℤ
  health : ℚ
  health_status : String

/-- `Tree.get_data` (lines 168-189): reading an absent dictionary key raises
`KeyError`, modelled as `none`. -/
def Tree.get_data (t : Tree) : Option Snapshot :=
  match t.growth_rate, t.fruit_count, t.health_status with
  | some gr, some fc, some hs =>
      some { age := t.age, stored_nutrients := t.energy.stored_nutrients,
             growth_rate := gr, tree_size := t.energy.tree_size,
             fruit_count := fc, health := t.health, health_status := hs }
  | _, _, _ => none

/-- One day of environment inputs, as passed to `daily_update`. -/
structure EnvironmentInputs where
  sunlight : ℚ
  water : ℚ
  day_of_year : ℚ
  temperature : ℚ
  humidity : ℚ
  CO2_concentration : ℚ
  disease_factor : ℚ

/-- A sequence of `daily_update` calls. -/
def Tree.run_days (M : PyMath) (t : Tree) (l : List EnvironmentInputs) : Tree :=
  l.foldl
    (fun tr i =>
      Tree.daily_update M tr i.sunlight i.water i.day_of_year i.temperature
        i.humidity i.CO2_concentration i.disease_factor)
    t

/-- The fields of a `LogicAspect` object that later code may read: its output
dictionary entry. -/
structure LogicAspectObj where
  output_fruit_count : Option ℤ

/-- The fields of a `ControlAspect` object that later code may read. -/
structure ControlAspectObj where
  state_health : ℚ
  output_health_status : Option String

/-- The `decide_growth_and_fruit_production` method call with the receiving
object threaded explicitly: the method body (lines 108-125) contains no
assignment to `self`, so the object comes back unchanged. -/
def LogicAspect.decide_call (M : PyMath) (la : LogicAspectObj)
    (stored_nutrients day_of_year tree_age tree_size health : ℚ) :
    LogicAspectObj × (ℚ × ℚ × ℤ) :=
  (la, LogicAspect.decide_growth_and_fruit_production M stored_nutrients
    day_of_year tree_age tree_size health)

/-- The `assess_health` method call with the receiving object threaded
explicitly: the method body (lines 135-140) contains no assignment to `self`,
so the object comes back unchanged. -/
def ControlAspect.assess_call (ca : ControlAspectObj)
    (stored_nutrients disease_factor : ℚ) : ControlAspectObj × ℚ :=
  (ca, ControlAspect.assess_health stored_nutrients disease_factor)

/-- A concrete instantiation of the abstract math functions, used to evaluate
the model at concrete inputs in statements that do not depend on them. -/
def pymath0 : PyMath := { pi := 0, cos := fun _ => 0, sin := fun _ => 0 }

/-- The energy-generated formula of the spec: `sunlight * water * 0.1 * yield`. -/
def energyGeneratedFormula (M : PyMath) (es : EnergyState)
    (sunlight water day_of_year temperature humidity CO2_concentration : ℚ) : ℚ :=
  sunlight * water * (1/10) *
    EnergyAspect.photosynthesis M es day_of_year temperature humidity
      CO2_concentration 1

/-- The consumption formula of the spec: `0.05 * tree_size` plus, when
`stored_nutrients > 20`, `0.02 * stored_nutrients`. -/
def consumptionFormula (tree_size stored_nutrients : ℚ) : ℚ :=
  (5/100) * tree_size + (if stored_nutrients > 20 then (2/100) * stored_nutrients else 0)

lemma respiration_size_le (es : EnergyState) :
    es.tree_size ≤ (EnergyAspect.respiration_and_growth es).1.tree_size := by
  unfold EnergyAspect.respiration_and_growth
  dsimp only
  split <;> split <;> linarith

lemma respiration_size_eq (es : EnergyState) :
    (EnergyAspect.respiration_and_growth es).1.tree_size =
      if (EnergyAspect.respiration_and_growth es).1.stored_nutrients > 20
      then es.tree_size + 1/100 else es.tree_size := rfl

lemma respiration_has_leaves (es : EnergyState) :
    (EnergyAspect.respiration_and_growth es).1.has_leaves = es.has_leaves := rfl

lemma generate_energy_has_leaves (M : PyMath) (es : EnergyState)
    (s w d te hu co : ℚ) :
    (EnergyAspect.generate_energy M es s w d te hu co).1.has_leaves =
      es.has_leaves := by
  cases h : es.has_leaves <;>
    simp [EnergyAspect.generate_energy, EnergyAspect.respiration_and_growth, h]

lemma generate_energy_size_le (M : PyMath) (es : EnergyState)
    (s w d te hu co : ℚ) :
    es.tree_size ≤ (EnergyAspect.generate_energy M es s w d te hu co).1.tree_size := by
  cases h : es.has_leaves
  · simp only [EnergyAspect.generate_energy, h, Bool.false_eq_true, if_false]
    exact respiration_size_le es
  · simp only [EnergyAspect.generate_energy, h, if_true]
    exact respiration_size_le _

lemma generate_energy_size_eq (M : PyMath) (es : EnergyState)
    (s w d te hu co : ℚ) :
    (EnergyAspect.generate_energy M es s w d te hu co).1.tree_size =
      if (EnergyAspect.generate_energy M es s w d te hu co).1.stored_nutrients > 20
      then es.tree_size + 1/100 else es.tree_size := by
  cases h : es.has_leaves
  · simp only [EnergyAspect.generate_energy, h, Bool.false_eq_true, if_false]
    exact respiration_size_eq es
  · simp only [EnergyAspect.generate_energy, h, if_true]
    exact respiration_size_eq _

lemma daily_update_size_mono (M : PyMath) (t : Tree) (s w d te hu co df : ℚ) :
    t.energy.tree_size ≤ (Tree.daily_update M t s w d te hu co df).energy.tree_size :=
  generate_energy_size_le M { t.energy with has_leaves := leavesForDay d } s w d te hu co

lemma daily_update_has_leaves (M : PyMath) (t : Tree) (s w d te hu co df : ℚ) :
    (Tree.daily_update M t s w d te hu co df).energy.has_leaves = leavesForDay d :=
  generate_energy_has_leaves M { t.energy with has_leaves := leavesForDay d } s w d te hu co

/-- C3: every call to `daily_update` increases `age` by exactly `1/365`,
whatever the inputs are. -/
theorem age_increment (M : PyMath) (t : Tree) (s w d te hu co df : ℚ) :
    (Tree.daily_update M t s w d te hu co df).age = t.age + 1/365 := rfl

/-- C4: after `daily_update` recomputes the leaves, `has_leaves` is false
exactly for `day_of_year` in `[330, 365] ∪ [1, 60]` (hence true for every
other day), and the value does not depend on the prior state of the tree. -/
theorem has_leaves_window (M : PyMath) (t t2 : Tree) (s w d te hu co df : ℚ) :
    ((Tree.daily_update M t s w d te hu co df).energy.has_leaves = false ↔
      (330 ≤ d ∧ d ≤ 365) ∨ (1 ≤ d ∧ d ≤ 60))
    ∧ (Tree.daily_update M t s w d te hu co df).energy.has_leaves =
        (Tree.daily_update M t2 s w d te hu co df).energy.has_leaves := by
  rw [daily_update_has_leaves, daily_update_has_leaves]
  refine ⟨?_, rfl⟩
  by_cases hP : (330 ≤ d ∧ d ≤ 365) ∨ (1 ≤ d ∧ d ≤ 60) <;>
    simp [leavesForDay, hP]

/-- C2: `tree_size` never decreases, both across a single `daily_update` call
with arbitrary inputs and across any sequence of such calls. -/
theorem tree_size_monotone :
    (∀ (M : PyMath) (t : Tree) (s w d te hu co df : ℚ),
      t.energy.tree_size ≤ (Tree.daily_update M t s w d te hu co df).energy.tree_size)
    ∧ (∀ (M : PyMath) (t : Tree) (l : List EnvironmentInputs),
      t.energy.tree_size ≤ (Tree.run_days M t l).energy.tree_size) := by
  refine ⟨daily_update_size_mono, ?_⟩
  intro M t l
  induction l generalizing t with
  | nil => exact le_rfl
  | cons i l ih =>
      exact le_trans
        (daily_update_size_mono M t i.sunlight i.water i.day_of_year
          i.temperature i.humidity i.CO2_concentration i.disease_factor)
        (ih _)

/-- C9: each `daily_update` call leaves `tree_size` unchanged or adds exactly
`0.01`, and it adds `0.01` exactly when the nutrients left right after the
consumption subtraction inside `respiration_and_growth` exceed `20`. -/
theorem tree_size_step_dichotomy (M : PyMath) (t : Tree) (s w d te hu co df : ℚ) :
    ((Tree.daily_update M t s w d te hu co df).energy.tree_size = t.energy.tree_size
      ∨ (Tree.daily_update M t s w d te hu co df).energy.tree_size =
          t.energy.tree_size + 1/100)
    ∧ ((Tree.daily_update M t s w d te hu co df).energy.tree_size =
        if (EnergyAspect.generate_energy M
              { t.energy with has_leaves := leavesForDay d }
              s w d te hu co).1.stored_nutrients > 20
        then t.energy.tree_size + 1/100 else t.energy.tree_size) := by
  have key : (Tree.daily_update M t s w d te hu co df).energy.tree_size =
      if (EnergyAspect.generate_energy M
            { t.energy with has_leaves := leavesForDay d }
            s w d te hu co).1.stored_nutrients > 20
      then t.energy.tree_size + 1/100 else t.energy.tree_size :=
    generate_energy_size_eq M { t.energy with has_leaves := leavesForDay d } s w d te hu co
  refine ⟨?_, key⟩
  rw [key]
  split
  · exact Or.inr rfl
  · exact Or.inl rfl

/-- C1 counterexample: at `stored_nutrients = 18`, `day_of_year = 200`,
`tree_age = 4`, `tree_size = 1`, `health = 0.6` the code returns
`fruit_count = int(18 // 10 * 0.6) = 0`, while the claimed formula
`floor(18 / 10 * max(0.5, 0.6)) = floor(1.08)` gives `1`. -/
theorem fruit_count_spec_formula_fails :
    (LogicAspect.decide_growth_and_fruit_production pymath0 18 200 4 1 (3/5)).2.2
      ≠ ⌊(18 : ℚ) / 10 * max (1/2) ((3 : ℚ)/5)⌋ := by
  norm_num [LogicAspect.decide_growth_and_fruit_production, pyInt, pyFloorDiv]

/-- C1 amended: inside the fruiting window the code floor-divides the
nutrients by 10 first, then multiplies by `max(0.5, health)` and truncates:
`fruit_count = ⌊⌊stored_nutrients / 10⌋ * max(0.5, health)⌋`, and
`updated_nutrients = stored_nutrients - fruit_count * 0.5`. -/
theorem fruit_count_floor_div_rule (M : PyMath) (s d a sz h : ℚ)
    (h1 : 150 ≤ d) (h2 : d ≤ 250) (h3 : 10 < s) (h4 : 3 ≤ a) (h5 : a ≤ 5) :
    (LogicAspect.decide_growth_and_fruit_production M s d a sz h).2.2 =
      ⌊(⌊s / 10⌋ : ℚ) * max (1/2) h⌋
    ∧ (LogicAspect.decide_growth_and_fruit_production M s d a sz h).2.1 =
      s - (⌊(⌊s / 10⌋ : ℚ) * max (1/2) h⌋ : ℚ) * (1/2) := by
  have hcond : 150 ≤ d ∧ d ≤ 250 ∧ s > 10 ∧ 3 ≤ a ∧ a ≤ 5 := ⟨h1, h2, h3, h4, h5⟩
  have h10 : (1 : ℚ) ≤ (⌊s / 10⌋ : ℚ) := by
    have hq : (1 : ℚ) ≤ s / 10 := by linarith
    exact_mod_cast Int.le_floor.mpr (by exact_mod_cast hq)
  have hm : (0 : ℚ) < max (1/2) h :=
    lt_of_lt_of_le (by norm_num) (le_max_left _ _)
  have hnn : (0 : ℚ) ≤ (⌊s / 10⌋ : ℚ) * max (1/2) h :=
    mul_nonneg (by linarith) (le_of_lt hm)
  have hpy : pyInt (pyFloorDiv s 10 * max (1/2) h) =
      ⌊(⌊s / 10⌋ : ℚ) * max (1/2) h⌋ := by
    unfold pyInt pyFloorDiv
    rw [if_pos hnn]
  simp only [LogicAspect.decide_growth_and_fruit_production, if_pos hcond]
  rw [hpy]
  exact ⟨rfl, rfl⟩

/-- C1 amended, witnessed at `stored_nutrients = 18`, `day_of_year = 200`,
`tree_age = 4`, `tree_size = 1`, `health = 0.6`. -/
theorem fruit_count_floor_div_rule_witness :
    (LogicAspect.decide_growth_and_fruit_production pymath0 18 200 4 1 (3/5)).2.2 =
      ⌊(⌊(18 : ℚ) / 10⌋ : ℚ) * max (1/2) ((3 : ℚ)/5)⌋
    ∧ (LogicAspect.decide_growth_and_fruit_production pymath0 18 200 4 1 (3/5)).2.1 =
      18 - (⌊(⌊(18 : ℚ) / 10⌋ : ℚ) * max (1/2) ((3 : ℚ)/5)⌋ : ℚ) * (1/2) :=
  fruit_count_floor_div_rule pymath0 18 200 4 1 (3/5) (by norm_num) (by norm_num)
    (by norm_num) (by norm_num) (by norm_num)

/-- C5: outside the fruiting window (young or old tree, wrong season, or
insufficient nutrients) the decision produces no fruit and leaves the
nutrients unchanged. -/
theorem no_fruit_outside_window (M : PyMath) (s d a sz h : ℚ)
    (hc : a < 3 ∨ 5 < a ∨ d < 150 ∨ 250 < d ∨ s ≤ 10) :
    (LogicAspect.decide_growth_and_fruit_production M s d a sz h).2.2 = 0
    ∧ (LogicAspect.decide_growth_and_fruit_production M s d a sz h).2.1 = s := by
  have hneg : ¬(150 ≤ d ∧ d ≤ 250 ∧ s > 10 ∧ 3 ≤ a ∧ a ≤ 5) := by
    rintro ⟨k1, k2, k3, k4, k5⟩
    rcases hc with hx | hx | hx | hx | hx <;> linarith
  simp only [LogicAspect.decide_growth_and_fruit_production, if_neg hneg]
  constructor <;> trivial

/-- C5, witnessed on a one-year-old tree in season with ample nutrients. -/
theorem no_fruit_outside_window_witness :
    (LogicAspect.decide_growth_and_fruit_production pymath0 50 200 1 1 1).2.2 = 0
    ∧ (LogicAspect.decide_growth_and_fruit_production pymath0 50 200 1 1 1).2.1 = 50 :=
  no_fruit_outside_window pymath0 50 200 1 1 1 (Or.inl (by norm_num))

/-- C6: when the tree is leafless the reported net energy is `0`, yet the
nutrients still drop by the full respiration-and-growth consumption; when it
is leafed the net energy is the generated energy minus the consumption taken
on the post-photosynthesis reservoir. -/
theorem net_energy_leafless_asymmetry (M : PyMath) (es : EnergyState)
    (s w d te hu co : ℚ) :
    ((EnergyAspect.generate_energy M es s w d te hu co).2 =
      if es.has_leaves
      then energyGeneratedFormula M es s w d te hu co -
        consumptionFormula es.tree_size
          (es.stored_nutrients + energyGeneratedFormula M es s w d te hu co)
      else 0)
    ∧ ((EnergyAspect.generate_energy M es s w d te hu co).1.stored_nutrients =
      (if es.has_leaves
       then es.stored_nutrients + energyGeneratedFormula M es s w d te hu co
       else es.stored_nutrients) -
      consumptionFormula es.tree_size
        (if es.has_leaves
         then es.stored_nutrients + energyGeneratedFormula M es s w d te hu co
         else es.stored_nutrients)) := by
  cases h : es.has_leaves <;>
    simp [EnergyAspect.generate_energy, EnergyAspect.respiration_and_growth,
      energyGeneratedFormula, consumptionFormula, h]

/-- C7: `decide_growth_and_fruit_production` and `assess_health` leave their
receiving object untouched and return the same outputs on a repeated call
with identical arguments, and the environment computations inside
`photosynthesis` do not depend on the nutrient reservoir. -/
theorem aspects_pure (M : PyMath) (la : LogicAspectObj) (ca : ControlAspectObj)
    (es : EnergyState) (s d a sz h n df te hu co a0 n2 : ℚ) :
    (LogicAspect.decide_call M la s d a sz h).1 = la
    ∧ (LogicAspect.decide_call M (LogicAspect.decide_call M la s d a sz h).1
        s d a sz h).2 = (LogicAspect.decide_call M la s d a sz h).2
    ∧ (ControlAspect.assess_call ca n df).1 = ca
    ∧ (ControlAspect.assess_call (ControlAspect.assess_call ca n df).1 n df).2 =
        (ControlAspect.assess_call ca n df).2
    ∧ EnergyAspect.photosynthesis M { es with stored_nutrients := n2 } d te hu co a0 =
        EnergyAspect.photosynthesis M es d te hu co a0 :=
  ⟨rfl, rfl, rfl, rfl, rfl⟩

/-- C8: on a freshly constructed tree `get_data` fails — the output entries
`growth_rate`, `fruit_count` and `health_status` are absent — while after any
`daily_update` call it succeeds. -/
theorem snapshot_requires_update :
    (∀ lat n0 : ℚ,
      (Tree.init lat n0).growth_rate = none
      ∧ (Tree.init lat n0).fruit_count = none
      ∧ (Tree.init lat n0).health_status = none
      ∧ (Tree.init lat n0).get_data = none)
    ∧ (∀ (M : PyMath) (t : Tree) (s w d te hu co df : ℚ),
      ((Tree.daily_update M t s w d te hu co df).get_data).isSome = true) := by
  exact ⟨fun lat n0 => ⟨rfl, rfl, rfl, rfl⟩, fun M t s w d te hu co df => rfl⟩

/-- C10: with a disease factor in `[0, 1]` the health score lies in
`[-0.1, 1]`; it is `1 - disease_factor` when the nutrients reach `10`,
`1 - disease_factor - 0.1` below that, and it never exceeds `1` for any
non-negative disease factor. -/
theorem assess_health_range (n d : ℚ) (h0 : 0 ≤ d) (h1 : d ≤ 1) :
    (-(1/10) ≤ ControlAspect.assess_health n d
      ∧ ControlAspect.assess_health n d ≤ 1)
    ∧ (10 ≤ n → ControlAspect.assess_health n d = 1 - d)
    ∧ (n < 10 → ControlAspect.assess_health n d = 1 - d - 1/10)
    ∧ ∀ d2 : ℚ, 0 ≤ d2 → ControlAspect.assess_health n d2 ≤ 1 := by
  unfold ControlAspect.assess_health
  dsimp only
  refine ⟨?_, ?_, ?_, ?_⟩
  · split <;> constructor <;> linarith
  · intro hn
    rw [if_neg (not_lt.mpr hn)]
  · intro hn
    rw [if_pos hn]
  · intro d2 hd2
    split <;> linarith

/-- C10, witnessed at `stored_nutrients = 20`, `disease_factor = 0.5`. -/
theorem assess_health_range_witness :
    (-(1/10) ≤ ControlAspect.assess_health 20 (1/2)
      ∧ ControlAspect.assess_health 20 (1/2) ≤ 1)
    ∧ ((10 : ℚ) ≤ 20 → ControlAspect.assess_health 20 (1/2) = 1 - 1/2)
    ∧ ((20 : ℚ) < 10 → ControlAspect.assess_health 20 (1/2) = 1 - 1/2 - 1/10)
    ∧ ∀ d2 : ℚ, 0 ≤ d2 → ControlAspect.assess_health 20 d2 ≤ 1 :=
  assess_health_range 20 (1/2) (by norm_num) (by norm_num)

end TreeSim
